import Mathlib

/-!
Verification of the chatin function-registry / dispatch / completion-loop core
(`chatin.ts`) against its specification.  The TypeScript class
`ChatFunctionsController` is embedded shallowly: the mutable instance fields
become a state record, each method becomes a state-passing function, JS `Map`s
become association lists with `Map.set` replace-in-place semantics, and JS
exceptions become `Except`.  External collaborators (the `JSON.parse` built-in,
the `gpt-tokenizer` `isWithinTokenLimit` token counter, and the OpenAI
completion transport) are parameters: an argument-payload decoder, a token
counting function, and a list of stubbed responses consumed in order.
-/

namespace Chatin

/-- Values of a flat JSON argument payload (the dispatcher treats the parsed
arguments as a flat key-to-value map). -/
inductive JsonValue where
  | str (s : String)
  | num (n : Int)
  | boolean (b : Bool)
  | null
  deriving DecidableEq

/-- First-match lookup in an association list: JS `Map.get`.  Keys are unique
because insertion goes through `mapSet`. -/
def mapFind {α : Type} (m : List (String × α)) (k : String) : Option α :=
  match m with
  | [] => none
  | (k₁, v) :: rest => if k₁ = k then some v else mapFind rest k

/-- JS `Map.set`: replace the value in place when the key is present, append
otherwise. -/
def mapSet {α : Type} (m : List (String × α)) (k : String) (v : α) :
    List (String × α) :=
  match m with
  | [] => [(k, v)]
  | (k₁, v₁) :: rest =>
    if k₁ = k then (k, v) :: rest else (k₁, v₁) :: mapSet rest k v

/-- The parameter type tag accepted by the `ChatParameter` decorator:
`'string' | 'object'`. -/
inductive ParamType where
  | string
  | object
  deriving DecidableEq

/-- The per-parameter metadata record stored by the `ChatParameter` decorator:
`{...data, name: propertyKey}`.  `required` is the optional flag with JS
`undefined` read as `false`. -/
structure ChatParameterData where
  name : String
  description : String
  type : ParamType
  required : Bool
  deriving DecidableEq

/-- Data stored for each chat function (interface `ChatFunctionData`).  The
bound callable returns `Except`: `Except.error` models a thrown `Error` whose
`.message` is carried. -/
structure ChatFunctionData where
  description : String
  parameterData : List ChatParameterData
  parameterRequired : List String
  parameterIndex : List (String × Nat)
  func : List (Option JsonValue) → Except String String

/-- Token-usage counters (openai `CreateCompletionResponseUsage`). -/
structure CreateCompletionResponseUsage where
  prompt_tokens : Nat
  completion_tokens : Nat
  total_tokens : Nat
  deriving DecidableEq

/-- The all-zero usage record the controller initializes and resets to. -/
def usageZero : CreateCompletionResponseUsage := ⟨0, 0, 0⟩

/-- Message roles. -/
inductive Role where
  | system
  | user
  | assistant
  | function
  deriving DecidableEq

/-- A function-invocation request carried on a message (`function_call`).  The
source reads both fields through non-null assertions, so they are total here. -/
structure FunctionCall where
  name : String
  arguments : String
  deriving DecidableEq

/-- Conversation message (openai `ChatCompletionRequestMessage`). -/
structure ChatCompletionRequestMessage where
  role : Role
  content : Option String := none
  name : Option String := none
  function_call : Option FunctionCall := none
  deriving DecidableEq

/-- The mutable instance state of `ChatFunctionsController`.  Field defaults
mirror the field initializers and the constructor's default options. -/
structure ChatFunctionsController where
  registeredFunctionsMap : List (String × ChatFunctionData) := []
  enabledFunctions : List String := []
  usage : CreateCompletionResponseUsage := usageZero
  messages : List ChatCompletionRequestMessage := []
  model : String := "gpt-3.5-turbo-0613"

/-- A freshly constructed controller (no options supplied). -/
def newController : ChatFunctionsController := {}

/-- The method-level metadata attached by the `ChatFunction` decorator. -/
structure ChatFunctionMeta where
  name : String
  description : String

/-- The data argument of one `ChatParameter` decoration (before the decorator
adds `name := propertyKey`). -/
structure ChatParameterMeta where
  description : String
  type : ParamType
  required : Bool

/-- One annotated method of a plugin class: its property key on the prototype,
its `ChatFunction` metadata, its `ChatParameter` metadata contiguous from
position 0 (the registration walk stops at the first gap), and the bound
callable. -/
structure PluginMethod where
  key : String
  meta : ChatFunctionMeta
  params : List ChatParameterMeta
  func : List (Option JsonValue) → Except String String

/-- A plugin object: the prototype methods that carry `chat_function`
metadata. -/
structure Plugin where
  methods : List PluginMethod

/-- `opts.namespace ? namespace + "." + name : name`. -/
def applyNamespace (ns : Option String) (n : String) : String :=
  match ns with
  | some s => s ++ "." ++ n
  | none => n

/-- Options for registering functions (`RegisterFunctionsOptions`, after the
defaults spread: `enable` defaults to `[]`). -/
structure RegisterFunctionsOptions where
  ns : Option String := none
  enable : List String := []

/-- The per-method metadata walk of `registerFunctions`: for positions
`0, 1, ...` it pushes the stored parameter metadata, pushes the metadata name
onto the required list when `required` is truthy, and does
`parameterIndex.set(metadata.name, i)`.  The TS parameter decorator receives
the METHOD's `propertyKey`, so the stored `name` of every parameter is the
method key. -/
def extractDescriptor (meth : PluginMethod) : ChatFunctionData :=
  let folded := meth.params.enum.foldl
    (fun (acc : List ChatParameterData × List String × List (String × Nat)) p =>
      let md : ChatParameterData :=
        { name := meth.key, description := p.2.description, type := p.2.type,
          required := p.2.required }
      ( acc.1 ++ [md],
        if md.required then acc.2.1 ++ [md.name] else acc.2.1,
        mapSet acc.2.2 md.name p.1 ))
    ([], [], [])
  { description := meth.meta.description
    parameterData := folded.1
    parameterRequired := folded.2.1
    parameterIndex := folded.2.2
    func := meth.func }

/-- `registerFunctions(plugin, options)`: push every name of `opts.enable`
(namespaced) onto `enabledFunctions` unconditionally, then insert one
descriptor per annotated method under its (namespaced) `ChatFunction` name. -/
def registerFunctions (st : ChatFunctionsController) (plugin : Plugin)
    (opts : RegisterFunctionsOptions) : ChatFunctionsController :=
  let enabled := st.enabledFunctions ++ opts.enable.map (applyNamespace opts.ns)
  let m := plugin.methods.foldl
    (fun acc meth =>
      mapSet acc (applyNamespace opts.ns meth.meta.name) (extractDescriptor meth))
    st.registeredFunctionsMap
  { st with enabledFunctions := enabled, registeredFunctionsMap := m }

/-- The function-schema shape sent to the completion service (openai
`ChatCompletionFunctions`): `properties` is the object built by the `reduce`. -/
structure ChatCompletionFunctions where
  name : String
  description : String
  properties : List (String × ParamType × String)
  required : List String
  deriving DecidableEq

/-- One entry of `getRegisteredFunctions`' `Array.from` mapping. -/
def toSchema (name : String) (d : ChatFunctionData) : ChatCompletionFunctions :=
  { name := name
    description := d.description
    properties := d.parameterData.foldl
      (fun acc cur => mapSet acc cur.name (cur.type, cur.description)) []
    required := (d.parameterData.filter (fun p => p.required)).map (fun p => p.name) }

/-- `getRegisteredFunctions()`: map every registered entry to its schema, then
keep those whose name is included in `enabledFunctions`. -/
def getRegisteredFunctions (st : ChatFunctionsController) :
    List ChatCompletionFunctions :=
  (st.registeredFunctionsMap.map (fun e => toSchema e.1 e.2)).filter
    (fun f => st.enabledFunctions.contains f.name)

/-- `enableFunction(name)`.  The source guard is
`if (this.enabledFunctions.indexOf(name) != -1)` — it pushes only when the
name is ALREADY present. -/
def enableFunction (st : ChatFunctionsController) (name : String) :
    ChatFunctionsController :=
  if st.enabledFunctions.contains name then
    { st with enabledFunctions := st.enabledFunctions ++ [name] }
  else st

/-- `disableFunction(name)`: `splice(indexOf(name), 1)` removes the first
occurrence when present. -/
def disableFunction (st : ChatFunctionsController) (name : String) :
    ChatFunctionsController :=
  if st.enabledFunctions.contains name then
    { st with enabledFunctions := st.enabledFunctions.erase name }
  else st

/-- `enableFunctions(...names)`. -/
def enableFunctionsMany (st : ChatFunctionsController) (names : List String) :
    ChatFunctionsController :=
  names.foldl enableFunction st

/-- `disableFunctions(...names)`. -/
def disableFunctionsMany (st : ChatFunctionsController) (names : List String) :
    ChatFunctionsController :=
  names.foldl disableFunction st

/-- The errors thrown by the dispatch path, carrying the data interpolated
into their `Error` message. -/
inductive ChatError where
  | functionNotFound (name : String)
  | argumentParse (msg : String)
  | missingRequired (required got : List String)
  | unknownParameter (key : String)
  | callee (msg : String)
  deriving DecidableEq

/-- `Array.prototype.join(', ')`. -/
def joinComma (l : List String) : String := String.intercalate ", " l

/-- The `.message` of each thrown `Error`, as interpolated in the source. -/
def errMessage : ChatError → String
  | .functionNotFound n => "Function " ++ n ++ " not found"
  | .argumentParse m => m
  | .missingRequired req got =>
      "Missing required parameters (needed \"" ++ joinComma req ++ "\", got "
        ++ joinComma got ++ ")"
  | .unknownParameter k => "Unknown parameter " ++ k
  | .callee m => m

/-- JS array element assignment `a[i] = v` on an array of length `≤ i`: the
array grows to length `i + 1` and the holes read back as `undefined`
(`none`). -/
def setAt : List (Option JsonValue) → Nat → JsonValue → List (Option JsonValue)
  | [], 0, v => [some v]
  | [], i + 1, v => none :: setAt [] i v
  | _ :: rest, 0, v => some v :: rest
  | x :: rest, i + 1, v => x :: setAt rest i v

/-- The `for (const [key, value] of Object.entries(parsedArgs))` loop of
`handleFunctionCall`: resolve each key's position, failing on the first key
with no position, and assign into the positional array. -/
def buildArgsArray (pIdx : List (String × Nat)) :
    List (String × JsonValue) → List (Option JsonValue) →
    Except String (List (Option JsonValue))
  | [], acc => .ok acc
  | (k, v) :: rest, acc =>
    match mapFind pIdx k with
    | none => .error k
    | some pos => buildArgsArray pIdx rest (setAt acc pos v)

/-- `handleFunctionCall(name, args)`.  `parse` stands for the `JSON.parse`
built-in restricted to flat object payloads; its `Except.error` carries the
engine's parse-error message. -/
def handleFunctionCall
    (parse : String → Except String (List (String × JsonValue)))
    (st : ChatFunctionsController) (name args : String) :
    Except ChatError String :=
  match mapFind st.registeredFunctionsMap name with
  | none => .error (.functionNotFound name)
  | some funcData =>
    match parse args with
    | .error m => .error (.argumentParse m)
    | .ok parsedArgs =>
      let keys := parsedArgs.map (fun e => e.1)
      -- source: `if (!funcData.parameterRequired.every(r => names.includes(r))) throw`
      if funcData.parameterRequired.all (fun r => keys.contains r) then
        match buildArgsArray funcData.parameterIndex parsedArgs [] with
        | .error k => .error (.unknownParameter k)
        | .ok argsArray =>
          match funcData.func argsArray with
          | .ok r => .ok r
          | .error m => .error (.callee m)
      else
        .error (.missingRequired funcData.parameterRequired keys)

/-- The negated `isWithinTokenLimit` guard of the truncation loop.
`isWithinTokenLimit(text, limit)` returns `false` when the token count
exceeds the limit and the token count otherwise; `!` makes the guard true when
the count exceeds the limit OR the returned count is `0` (falsy in JS). -/
def notWithinTokenLimit (ct : String → Nat) (limit : Nat) (s : String) : Bool :=
  decide (limit < ct s) || decide (ct s = 0)

/-- One body execution of the truncation `while` loop:
`substring(0, 4 * max)` in the fast branch, `substring(0, length - 4)`
otherwise (a negative JS end index clamps to 0, matching `Nat` subtraction). -/
def truncStep (budget : Nat) (s : String) : String :=
  if 4 * budget < s.length then s.take (4 * budget) else s.take (s.length - 4)

/-- The truncation `while` loop, with explicit fuel: `none` means the loop did
not exit within `fuel` iterations. -/
def truncateLoop (ct : String → Nat) (budget : Nat) :
    Nat → String → Option String
  | 0, _ => none
  | fuel + 1, s =>
    if notWithinTokenLimit ct budget s then
      truncateLoop ct budget fuel (truncStep budget s)
    else some s

/-- `{...this.defaultFunctionMessageOptions, ...options}`: the
`requestMaxTokens` option defaults to 2048. -/
def resolveRequestMaxTokens (o : Option Nat) : Nat := o.getD 2048

/-- The JSON string-literal escaping performed by `JSON.stringify` on the
characters occurring in the dispatcher's error messages. -/
def jsEscape (s : String) : String :=
  s.foldl (fun acc c =>
    if c = '\\' then acc ++ "\\\\"
    else if c = '\"' then acc ++ "\\\"" else acc.push c) ""

/-- `JSON.stringify({error: msg})`. -/
def jsonErrorContent (msg : String) : String :=
  "\x7b\"error\":\"" ++ jsEscape msg ++ "\"\x7d"

/-- `getFunctionMessage(name, args, options)`: dispatch inside a `try`; on
success run the truncation loop and wrap the result as a function-role
message; on any thrown error wrap `{error: message}` instead.  `none` arises
only when the truncation loop does not exit within `fuel`. -/
def getFunctionMessage
    (parse : String → Except String (List (String × JsonValue)))
    (ct : String → Nat) (st : ChatFunctionsController) (name args : String)
    (o : Option Nat) (fuel : Nat) : Option ChatCompletionRequestMessage :=
  match handleFunctionCall parse st name args with
  | .ok result =>
    match truncateLoop ct (resolveRequestMaxTokens o) fuel result with
    | some t =>
      some { role := .function, content := some t, name := some name }
    | none => none
  | .error e =>
    some { role := .function, content := some (jsonErrorContent (errMessage e)),
           name := some name }

/-- `getFunctionMessageFromMessage(message, options)`: throw when the message
carries no `function_call`, delegate otherwise.  The thrown error is NOT
converted into a function-role message. -/
def getFunctionMessageFromMessage
    (parse : String → Except String (List (String × JsonValue)))
    (ct : String → Nat) (st : ChatFunctionsController)
    (message : ChatCompletionRequestMessage) (o : Option Nat) (fuel : Nat) :
    Except String (Option ChatCompletionRequestMessage) :=
  match message.function_call with
  | none => Except.error "Message does not have a function call"
  | some fc => Except.ok (getFunctionMessage parse ct st fc.name fc.arguments o fuel)

/-- One completion-service response: `data.choices[0].message` and
`data.usage`. -/
structure CompletionResponse where
  message : Option ChatCompletionRequestMessage
  usage : Option CreateCompletionResponseUsage
  deriving DecidableEq

/-- `response.data.choices[0].message?.function_call`. -/
def responseFunctionCall (r : CompletionResponse) : Option FunctionCall :=
  match r.message with
  | some m => m.function_call
  | none => none

/-- Resolved options of `getNextCompletion` (`GetCompletionOptions`). -/
structure GetCompletionOptions where
  model : String
  callFunctions : Bool

/-- `if (response.data.usage) this.usage = response.data.usage`. -/
def applyUsage (st : ChatFunctionsController)
    (u : Option CreateCompletionResponseUsage) : ChatFunctionsController :=
  match u with
  | some u₁ => { st with usage := u₁ }
  | none => st

/-- The auto-call loop's direct `this.messages.push(message)` (it does NOT go
through `addMessage`, so `usage` is left untouched). -/
def pushMessageRaw (st : ChatFunctionsController)
    (m : ChatCompletionRequestMessage) : ChatFunctionsController :=
  { st with messages := st.messages ++ [m] }

/-- `getNextCompletion(options)` against a stubbed completion service that
yields the responses of `responses` in order.  `none` models a run with no
result: the transport failing (responses exhausted) or a diverging truncation
loop.  The recursive call consumes the remaining responses; each frame then
re-applies the final response's usage, exactly as the source updates
`this.usage` after the recursion returns. -/
def getNextCompletion
    (parse : String → Except String (List (String × JsonValue)))
    (ct : String → Nat) (opt : GetCompletionOptions)
    (responses : List CompletionResponse) (st : ChatFunctionsController)
    (fuel : Nat) : Option (CompletionResponse × ChatFunctionsController) :=
  match responses with
  | [] => none
  | r :: rest =>
    match (if opt.callFunctions then responseFunctionCall r else none) with
    | some fc =>
      match getFunctionMessage parse ct st fc.name fc.arguments none fuel with
      | none => none
      | some msg =>
        match getNextCompletion parse ct opt rest (pushMessageRaw st msg) fuel with
        | none => none
        | some (r₂, st₂) => some (r₂, applyUsage st₂ r₂.usage)
    | none => some (r, applyUsage st r.usage)

/-- `addMessage(message)`: push the message and reset `usage` to zero. -/
def addMessage (st : ChatFunctionsController)
    (m : ChatCompletionRequestMessage) : ChatFunctionsController :=
  { st with messages := st.messages ++ [m], usage := usageZero }

/-- `addSystemMessage(message)`. -/
def addSystemMessage (st : ChatFunctionsController) (s : String) :
    ChatFunctionsController :=
  addMessage st { role := .system, content := some s }

/-- `getCompletionWithMessage(message, options)`. -/
def getCompletionWithMessage
    (parse : String → Except String (List (String × JsonValue)))
    (ct : String → Nat) (st : ChatFunctionsController)
    (m : ChatCompletionRequestMessage) (opt : GetCompletionOptions)
    (responses : List CompletionResponse) (fuel : Nat) :
    Option (CompletionResponse × ChatFunctionsController) :=
  getNextCompletion parse ct opt responses (addMessage st m) fuel

/-- `clearMessages()`. -/
def clearMessages (st : ChatFunctionsController) : ChatFunctionsController :=
  { st with messages := [], usage := usageZero }

/-- The spec's data-model invariant for a descriptor: position `i` of the
parameter list corresponds to exactly one entry of the name-to-position map
with value `i`, and every required name is a key of that map. -/
def descriptorInvariant (d : ChatFunctionData) : Prop :=
  (∀ i, i < d.parameterData.length →
    (d.parameterIndex.filter (fun e => e.2 == i)).length = 1) ∧
  (∀ r, r ∈ d.parameterRequired → (mapFind d.parameterIndex r).isSome = true)

/-- `getFunctionMessage` diverges on these arguments: no fuel makes the
truncation loop exit, so the JS original never returns. -/
def getFunctionMessageDiverges
    (parse : String → Except String (List (String × JsonValue)))
    (ct : String → Nat) (st : ChatFunctionsController) (name args : String)
    (o : Option Nat) : Prop :=
  ∀ fuel, getFunctionMessage parse ct st name args o fuel = none

/-! Concrete instances used to evaluate the model. -/

/-- A stand-in token counter.  Only two facts about the real `gpt-tokenizer`
counter are ever used: the count of the empty string is `0` (its encoding is
empty) and short strings fit in large budgets; counting characters satisfies
both. -/
def ctLen : String → Nat := fun s => s.length

/-- A payload decoder that always fails, for runs that never parse. -/
def parseNever : String → Except String (List (String × JsonValue)) :=
  fun _ => .error "Unexpected token"

/-- A payload decoder that always yields the empty object. -/
def parseEmptyArgs : String → Except String (List (String × JsonValue)) :=
  fun _ => .ok []

/-- A registered descriptor with required parameters `a`, `b` and optional
`c`, declared in that positional order. -/
def fdAbc : ChatFunctionData :=
  { description := "f"
    parameterData :=
      [⟨"a", "first", .string, true⟩, ⟨"b", "second", .string, true⟩,
       ⟨"c", "third", .string, false⟩]
    parameterRequired := ["a", "b"]
    parameterIndex := [("a", 0), ("b", 1), ("c", 2)]
    func := fun _ => .ok "ok" }

/-- A controller with `fdAbc` registered under `"f"`. -/
def stAbc : ChatFunctionsController :=
  { newController with registeredFunctionsMap := [("f", fdAbc)] }

/-- A decoder giving the four payload shapes of the dispatch property. -/
def parseAbc : String → Except String (List (String × JsonValue))
  | "P1" => .ok [("a", .num 1)]
  | "P2" => .ok [("a", .num 1), ("b", .num 2), ("d", .num 4)]
  | "P3" => .ok [("a", .num 1), ("b", .num 2)]
  | "P4" => .ok [("a", .num 1), ("b", .num 2), ("c", .num 3)]
  | _ => .error "Unexpected token"

/-- A plugin with a single zero-parameter function named `f`. -/
def pluginF : Plugin :=
  ⟨[⟨"f", ⟨"f", "a function"⟩, [], fun _ => .ok "ok"⟩]⟩

/-- A plugin with no annotated methods. -/
def pluginEmpty : Plugin := ⟨[]⟩

/-- The same plugin registered twice with `enable: ["f"]`: the enable name is
pushed unconditionally both times. -/
def stDoubleEnabled : ChatFunctionsController :=
  registerFunctions (registerFunctions newController pluginF ⟨none, ["f"]⟩)
    pluginF ⟨none, ["f"]⟩

/-- A controller with `fdAbc` registered and enabled exactly once. -/
def stAbcEnabled : ChatFunctionsController :=
  { stAbc with enabledFunctions := ["f"] }

/-- A method whose two parameters both carry `ChatParameter` metadata. -/
def twoParamMethod : PluginMethod :=
  ⟨"m", ⟨"m", "a method with two decorated parameters"⟩,
   [⟨"first parameter", .string, true⟩, ⟨"second parameter", .string, true⟩],
   fun _ => .ok "r"⟩

/-- A plugin exposing `twoParamMethod`. -/
def pluginTwoParams : Plugin := ⟨[twoParamMethod]⟩

/-- A registered function whose callee returns the empty string. -/
def fdEmptyResult : ChatFunctionData :=
  { description := "returns the empty string", parameterData := []
    parameterRequired := [], parameterIndex := [], func := fun _ => .ok "" }

/-- A controller with `fdEmptyResult` registered under `"f"`. -/
def stEmptyResult : ChatFunctionsController :=
  { newController with registeredFunctionsMap := [("f", fdEmptyResult)] }

/-- A controller holding a non-zero usage snapshot and no messages. -/
def c6Controller : ChatFunctionsController :=
  { registeredFunctionsMap := [], enabledFunctions := [], usage := ⟨1, 2, 3⟩,
    messages := [], model := "m" }

/-- A stubbed response requesting invocation of the unregistered function
`nosuch`, carrying no usage payload. -/
def c6CallResponse : CompletionResponse :=
  { message := some { role := .assistant, function_call := some ⟨"nosuch", "RAW"⟩ },
    usage := none }

/-- A stubbed final response with plain text and no usage payload. -/
def c6FinalResponse : CompletionResponse :=
  { message := some { role := .assistant, content := some "done" }, usage := none }

/-- The function-role message the dispatch failure on `nosuch` produces. -/
def c6ErrMsg : ChatCompletionRequestMessage :=
  { role := .function,
    content := some (jsonErrorContent "Function nosuch not found"),
    name := some "nosuch" }

/-! Helper lemmas about the truncation loop. -/

/-- When the truncation loop exits, the exit condition holds of its output:
the negated `isWithinTokenLimit` guard is false. -/
theorem truncateLoop_guard_false (ct : String → Nat) (budget : Nat) :
    ∀ fuel s t, truncateLoop ct budget fuel s = some t →
      notWithinTokenLimit ct budget t = false := by
  intro fuel
  induction fuel with
  | zero => intro s t h; simp [truncateLoop] at h
  | succ n ih =>
    intro s t h
    simp only [truncateLoop] at h
    split at h
    · exact ih _ _ h
    · cases h
      next hc => simpa using hc

/-- Neither branch of the loop body changes the empty string. -/
theorem truncStep_empty (budget : Nat) : truncStep budget "" = "" := by
  have h0 : String.length "" = 0 := rfl
  simp only [truncStep, h0]
  rw [if_neg (Nat.not_lt_zero _)]
  rfl

/-- On the empty string the guard is true (the token count `0` is falsy under
`!`) and the body is the identity, so the loop never exits. -/
theorem truncateLoop_empty (ct : String → Nat) (budget : Nat)
    (h0 : ct "" = 0) : ∀ fuel, truncateLoop ct budget fuel "" = none := by
  intro fuel
  induction fuel with
  | zero => rfl
  | succ n ih =>
    have hg : notWithinTokenLimit ct budget "" = true := by
      simp [notWithinTokenLimit, h0]
    simp only [truncateLoop, truncStep_empty]
    simp only [hg, if_true]
    exact ih

/-- C7: for any token counter, any positive budget and any input on which the
truncation loop of `getFunctionMessage` exits with output `t`, re-applying the
loop to `t` is a no-op (any positive fuel returns `t` unchanged), and the
final text is within the token budget or empty. -/
theorem c7_theorem (ct : String → Nat) (budget fuel : Nat) (s t : String)
    (_hb : 0 < budget) (h : truncateLoop ct budget fuel s = some t) :
    (∀ f, 0 < f → truncateLoop ct budget f t = some t) ∧
    (ct t ≤ budget ∨ t = "") := by
  have hg := truncateLoop_guard_false ct budget fuel s t h
  constructor
  · intro f hf
    match f, hf with
    | f + 1, _ =>
      simp only [truncateLoop, hg]
      simp
  · have hg' := hg
    simp only [notWithinTokenLimit, Bool.or_eq_false_iff,
      decide_eq_false_iff_not] at hg'
    exact Or.inl (Nat.le_of_not_lt hg'.1)

/-- Witness for C7 at a concrete input: budget 10 is positive, the loop exits
immediately on `"hi"`, and the theorem yields the fixed point and the budget
bound there. -/
theorem c7_witness :
    truncateLoop ctLen 10 1 "hi" = some "hi" ∧
    (ctLen "hi" ≤ 10 ∨ "hi" = "") :=
  ⟨(c7_theorem ctLen 10 1 "hi" "hi" (by decide) (by decide)).1 1 (by decide),
   (c7_theorem ctLen 10 1 "hi" "hi" (by decide) (by decide)).2⟩

/-- C8 (refuted): for every token counter assigning the empty string token
count `0` (as `gpt-tokenizer` does — the encoding of `""` is empty) and every
budget, the loop body leaves `""` unchanged and the truncation loop never
exits on it, for any amount of fuel.  The claimed termination argument ("each
branch strictly shrinks the text") fails at the empty string. -/
theorem c8_theorem (ct : String → Nat) (budget : Nat) (h0 : ct "" = 0) :
    truncStep budget "" = "" ∧ ∀ fuel, truncateLoop ct budget fuel "" = none :=
  ⟨truncStep_empty budget, truncateLoop_empty ct budget h0⟩

/-- Witness for C8's hypotheses at a concrete counter and budget. -/
theorem c8_witness :
    ctLen "" = 0 ∧ truncStep 2048 "" = "" ∧
    truncateLoop ctLen 2048 5 "" = none :=
  ⟨by decide, (c8_theorem ctLen 2048 (by decide)).1,
   (c8_theorem ctLen 2048 (by decide)).2 5⟩

/-- C2 (amended): `getFunctionMessage` yields a `function`-role message
carrying the requested name; on any dispatch failure the content is
`JSON.stringify` of `error: message` and the failure never propagates (a
message is returned regardless of fuel); on successful dispatch, whenever the
truncation loop exits, the content is its output — the possibly truncated
callee result. -/
theorem c2_theorem
    (parse : String → Except String (List (String × JsonValue)))
    (ct : String → Nat) (st : ChatFunctionsController) (name args : String)
    (o : Option Nat) (fuel : Nat) :
    (∀ e, handleFunctionCall parse st name args = .error e →
      getFunctionMessage parse ct st name args o fuel =
        some { role := .function,
               content := some (jsonErrorContent (errMessage e)),
               name := some name }) ∧
    (∀ r t, handleFunctionCall parse st name args = .ok r →
      truncateLoop ct (resolveRequestMaxTokens o) fuel r = some t →
      getFunctionMessage parse ct st name args o fuel =
        some { role := .function, content := some t, name := some name }) := by
  constructor
  · intro e he
    simp [getFunctionMessage, he]
  · intro r t hr ht
    simp [getFunctionMessage, hr, ht]

/-- Witness for C2 on a successful concrete dispatch. -/
theorem c2_witness :
    getFunctionMessage parseAbc ctLen stAbc "f" "P3" none 1 =
      some { role := .function, content := some "ok", name := some "f" } :=
  (c2_theorem parseAbc ctLen stAbc "f" "P3" none 1).2 "ok" "ok" rfl (by decide)

/-- C2 counterexample to the claim as stated: a registered callee returning
the empty string makes `getFunctionMessage` diverge in the truncation loop —
no message at all is returned, for any fuel. -/
theorem c2_counterexample :
    getFunctionMessageDiverges parseEmptyArgs ctLen stEmptyResult "f" "RAW"
      none := by
  intro fuel
  have h1 : handleFunctionCall parseEmptyArgs stEmptyResult "f" "RAW" =
      .ok "" := rfl
  simp only [getFunctionMessage, h1]
  rw [truncateLoop_empty ctLen (resolveRequestMaxTokens none) (by decide) fuel]

/-- C10: `getFunctionMessageFromMessage` on a message without a
`function_call` payload throws `"Message does not have a function call"` to
its caller; with a payload it delegates to `getFunctionMessage` and performs
no error conversion of its own. -/
theorem c10_theorem
    (parse : String → Except String (List (String × JsonValue)))
    (ct : String → Nat) (st : ChatFunctionsController)
    (msg : ChatCompletionRequestMessage) (o : Option Nat) (fuel : Nat) :
    (msg.function_call = none →
      getFunctionMessageFromMessage parse ct st msg o fuel =
        Except.error "Message does not have a function call") ∧
    (∀ fc, msg.function_call = some fc →
      getFunctionMessageFromMessage parse ct st msg o fuel =
        Except.ok (getFunctionMessage parse ct st fc.name fc.arguments o fuel)) := by
  constructor
  · intro h
    simp [getFunctionMessageFromMessage, h]
  · intro fc h
    simp [getFunctionMessageFromMessage, h]

/-- Witness for C10 at a concrete message without a function call. -/
theorem c10_witness :
    getFunctionMessageFromMessage parseNever ctLen newController
      { role := .assistant, content := some "hello" } none 1 =
      Except.error "Message does not have a function call" :=
  (c10_theorem parseNever ctLen newController
    { role := .assistant, content := some "hello" } none 1).1 rfl

/-- C1: for every controller state in which `fName` is registered with a
descriptor requiring `a`, `b` (in positions 0 and 1) and declaring optional
`c` (position 2), dispatch with a payload supplying only `a` fails with the
missing-required-parameters error, whose needed-list mentions the missing name
`b`; with `a`, `b` and an undeclared `d` it fails with the unknown-parameter
error for `d`; with `a,b` or `a,b,c` it succeeds and invokes the callee with
the values in declared positional order. -/
theorem c1_theorem
    (st : ChatFunctionsController)
    (parse : String → Except String (List (String × JsonValue)))
    (fName : String) (fd : ChatFunctionData)
    (va vb vc vd : JsonValue) (p₁ p₂ p₃ p₄ : String) (r₃ r₄ : String)
    (hf : mapFind st.registeredFunctionsMap fName = some fd)
    (hreq : fd.parameterRequired = ["a", "b"])
    (hidx : fd.parameterIndex = [("a", 0), ("b", 1), ("c", 2)])
    (hp₁ : parse p₁ = .ok [("a", va)])
    (hp₂ : parse p₂ = .ok [("a", va), ("b", vb), ("d", vd)])
    (hp₃ : parse p₃ = .ok [("a", va), ("b", vb)])
    (hp₄ : parse p₄ = .ok [("a", va), ("b", vb), ("c", vc)])
    (h₃ : fd.func [some va, some vb] = .ok r₃)
    (h₄ : fd.func [some va, some vb, some vc] = .ok r₄) :
    (handleFunctionCall parse st fName p₁ =
        .error (.missingRequired ["a", "b"] ["a"]) ∧
      "b" ∈ (["a", "b"] : List String)) ∧
    handleFunctionCall parse st fName p₂ = .error (.unknownParameter "d") ∧
    handleFunctionCall parse st fName p₃ = .ok r₃ ∧
    handleFunctionCall parse st fName p₄ = .ok r₄ := by
  refine ⟨⟨?_, by simp⟩, ?_, ?_, ?_⟩
  · simp [handleFunctionCall, hf, hp₁, hreq]
  · simp [handleFunctionCall, hf, hp₂, hreq, hidx, buildArgsArray, mapFind,
      setAt]
  · simp [handleFunctionCall, hf, hp₃, hreq, hidx, buildArgsArray, mapFind,
      setAt, h₃]
  · simp [handleFunctionCall, hf, hp₄, hreq, hidx, buildArgsArray, mapFind,
      setAt, h₄]

/-- Witness for C1 at a concrete registered descriptor and concrete
payloads. -/
theorem c1_witness :
    handleFunctionCall parseAbc stAbc "f" "P1" =
      .error (.missingRequired ["a", "b"] ["a"]) ∧
    handleFunctionCall parseAbc stAbc "f" "P2" =
      .error (.unknownParameter "d") ∧
    handleFunctionCall parseAbc stAbc "f" "P3" = .ok "ok" ∧
    handleFunctionCall parseAbc stAbc "f" "P4" = .ok "ok" :=
  have h := c1_theorem stAbc parseAbc "f" fdAbc (.num 1) (.num 2) (.num 3)
    (.num 4) "P1" "P2" "P3" "P4" "ok" "ok" rfl rfl rfl rfl rfl rfl rfl rfl rfl
  ⟨h.1.1, h.2.1, h.2.2.1, h.2.2.2⟩

/-- C4 (refuted): the guard of `enableFunction` is inverted, so enabling a
name that is absent is a no-op (the name does not become a member), enabling a
present name appends a duplicate (a second call is not a no-op), and after
`disableFunction` of the duplicated name it is still a member. -/
theorem c4_theorem :
    (enableFunction newController "f").enabledFunctions = [] ∧
    (enableFunction { newController with enabledFunctions := ["f"] }
      "f").enabledFunctions = ["f", "f"] ∧
    (disableFunction
      (enableFunction { newController with enabledFunctions := ["f"] } "f")
      "f").enabledFunctions = ["f"] := by
  refine ⟨rfl, rfl, rfl⟩

/-- C5 (refuted): registering a plugin whose method `m` has two decorated
parameters produces a descriptor with two parameter entries but a
name-to-position map holding the single entry `("m", 1)` (every parameter's
stored name is the method's property key), so position 0 corresponds to no
entry and the data-model invariant fails. -/
theorem c5_theorem :
    (extractDescriptor twoParamMethod).parameterData.length = 2 ∧
    (extractDescriptor twoParamMethod).parameterIndex = [("m", 1)] ∧
    (extractDescriptor twoParamMethod).parameterRequired = ["m", "m"] ∧
    ((mapFind (registerFunctions newController pluginTwoParams
        ⟨none, []⟩).registeredFunctionsMap "m").map
      (fun d => d.parameterIndex) = some [("m", 1)]) ∧
    ¬ descriptorInvariant (extractDescriptor twoParamMethod) := by
  refine ⟨rfl, rfl, rfl, rfl, ?_⟩
  intro hinv
  exact absurd (hinv.1 0 (by decide)) (by decide)

/-- C9: `registerFunctions` appends every `enable` name unconditionally, even
a name with no registered descriptor; registering the same plugin twice with
`enable: ["f"]` lists `"f"` twice; one `disableFunction` removes only one
occurrence and `"f"` stays visible in `getRegisteredFunctions`. -/
theorem c9_theorem :
    (registerFunctions newController pluginEmpty ⟨none, ["g"]⟩).enabledFunctions
      = ["g"] ∧
    (mapFind (registerFunctions newController pluginEmpty
        ⟨none, ["g"]⟩).registeredFunctionsMap "g").isSome = false ∧
    stDoubleEnabled.enabledFunctions = ["f", "f"] ∧
    (disableFunction stDoubleEnabled "f").enabledFunctions = ["f"] ∧
    "f" ∈ (getRegisteredFunctions (disableFunction stDoubleEnabled "f")).map
      (fun f => f.name) := by
  refine ⟨rfl, rfl, rfl, rfl, by decide⟩

/-- C3 counterexample to the claim as stated: `"f"` is registered and was
enabled (twice, by registering the same plugin twice with `enable: ["f"]`);
after one `disableFunction "f"` the name is still in the enabled list and
still appears in `getRegisteredFunctions`. -/
theorem c3_counterexample :
    stDoubleEnabled.enabledFunctions = ["f", "f"] ∧
    (disableFunction stDoubleEnabled "f").enabledFunctions = ["f"] ∧
    (getRegisteredFunctions (disableFunction stDoubleEnabled "f")).map
      (fun f => f.name) = ["f"] := by
  refine ⟨rfl, rfl, by decide⟩

/-- The names listed by `getRegisteredFunctions` are exactly the registered
keys whose name the enabled list contains. -/
theorem getRegisteredFunctions_names_aux (en : List String) :
    ∀ l : List (String × ChatFunctionData),
      ((l.map (fun e => toSchema e.1 e.2)).filter
        (fun f => en.contains f.name)).map (fun f => f.name) =
      (l.map (fun e => e.1)).filter (fun k => en.contains k) := by
  intro l
  induction l with
  | nil => rfl
  | cons hd tl ih =>
    by_cases hmem : hd.1 ∈ en <;> simp [toSchema, hmem] <;>
      simpa [toSchema] using ih

/-- C3 (amended): `getRegisteredFunctions` returns exactly the registered
functions whose names occur in the enabled list; a registered name absent
from the enabled list never appears; and after `disableFunction` of a name
that occurs exactly once in the enabled list, the name is absent from the
result while the registry map — and hence dispatch behaviour — is
unchanged. -/
theorem c3_amended_theorem (st : ChatFunctionsController) (n args : String)
    (parse : String → Except String (List (String × JsonValue)))
    (hcount : st.enabledFunctions.count n = 1) :
    ((getRegisteredFunctions st).map (fun f => f.name) =
      (st.registeredFunctionsMap.map (fun e => e.1)).filter
        (fun k => st.enabledFunctions.contains k)) ∧
    (∀ k, st.enabledFunctions.contains k = false →
      ∀ f ∈ getRegisteredFunctions st, f.name ≠ k) ∧
    (∀ f ∈ getRegisteredFunctions (disableFunction st n), f.name ≠ n) ∧
    (disableFunction st n).registeredFunctionsMap =
      st.registeredFunctionsMap ∧
    handleFunctionCall parse (disableFunction st n) n args =
      handleFunctionCall parse st n args := by
  have hmem : n ∈ st.enabledFunctions := by
    have hpos : 0 < st.enabledFunctions.count n := by omega
    exact List.count_pos_iff.mp hpos
  have hc : st.enabledFunctions.contains n = true := List.elem_iff.mpr hmem
  have hen : (disableFunction st n).enabledFunctions =
      st.enabledFunctions.erase n := by
    simp [disableFunction, hc, hmem]
  have hmap : (disableFunction st n).registeredFunctionsMap =
      st.registeredFunctionsMap := by
    unfold disableFunction
    split <;> rfl
  have hnotmem : n ∉ st.enabledFunctions.erase n := by
    have hz : (st.enabledFunctions.erase n).count n = 0 := by
      have := List.count_erase_self n st.enabledFunctions
      omega
    exact List.count_eq_zero.mp hz
  refine ⟨?_, ?_, ?_, hmap, ?_⟩
  · exact getRegisteredFunctions_names_aux st.enabledFunctions
      st.registeredFunctionsMap
  · intro k hk f hf heq
    simp only [getRegisteredFunctions] at hf
    have h2 := (List.mem_filter.mp hf).2
    simp only [heq, hk] at h2
    exact absurd h2 (by decide)
  · intro f hf heq
    simp only [getRegisteredFunctions] at hf
    have h2 := (List.mem_filter.mp hf).2
    simp only [heq, hen] at h2
    exact absurd (List.elem_iff.mp h2) hnotmem
  · simp only [handleFunctionCall, hmap]

/-- Witness for C3 at a concrete controller with `"f"` registered and enabled
exactly once. -/
theorem c3_witness :
    (disableFunction stAbcEnabled "f").registeredFunctionsMap =
      stAbcEnabled.registeredFunctionsMap ∧
    (∀ f ∈ getRegisteredFunctions (disableFunction stAbcEnabled "f"),
      f.name ≠ "f") :=
  have h := c3_amended_theorem stAbcEnabled "f" "RAW" parseNever (by decide)
  ⟨h.2.2.2.1, h.2.2.1⟩

/-- C6 (amended): `addMessage` (and `addSystemMessage`, built on it) appends
the message and resets the usage snapshot to all-zero; the function-result
message of the auto-calling loop is instead pushed directly onto the
transcript, leaving `usage` untouched at the moment of appending (it is only
overwritten afterwards when a response carries a usage payload). -/
theorem c6_theorem
    (parse : String → Except String (List (String × JsonValue)))
    (ct : String → Nat) (st st₁ : ChatFunctionsController)
    (m : ChatCompletionRequestMessage) (s : String)
    (opt : GetCompletionOptions) (r : CompletionResponse)
    (rest : List CompletionResponse) (fc : FunctionCall)
    (msg : ChatCompletionRequestMessage) (fuel : Nat)
    (hcf : opt.callFunctions = true)
    (hr : responseFunctionCall r = some fc)
    (hm : getFunctionMessage parse ct st₁ fc.name fc.arguments none fuel =
      some msg) :
    ((addMessage st m).messages = st.messages ++ [m] ∧
      (addMessage st m).usage = usageZero) ∧
    (addSystemMessage st s).usage = usageZero ∧
    (pushMessageRaw st₁ msg).usage = st₁.usage ∧
    (pushMessageRaw st₁ msg).messages = st₁.messages ++ [msg] ∧
    getNextCompletion parse ct opt (r :: rest) st₁ fuel =
      (getNextCompletion parse ct opt rest (pushMessageRaw st₁ msg) fuel).map
        (fun p => (p.1, applyUsage p.2 p.1.usage)) := by
  refine ⟨⟨rfl, rfl⟩, rfl, rfl, rfl, ?_⟩
  simp only [getNextCompletion, hcf, if_true, hr, hm]
  cases getNextCompletion parse ct opt rest (pushMessageRaw st₁ msg) fuel with
  | none => rfl
  | some p => rfl

/-- Witness for C6 at a concrete run: the loop's pushed function message
leaves the non-zero usage snapshot in place. -/
theorem c6_witness :
    (pushMessageRaw c6Controller c6ErrMsg).usage = c6Controller.usage :=
  (c6_theorem parseNever ctLen c6Controller c6Controller { role := .user } "s"
    ⟨"m", true⟩ c6CallResponse [] ⟨"nosuch", "RAW"⟩ c6ErrMsg 0 rfl rfl
    rfl).2.2.1

/-- C6 counterexample to the claim as stated: a completion run with
`callFunctions` that appends one function-result message to a controller
whose usage snapshot is `⟨1, 2, 3⟩` ends with the transcript grown by one and
the usage snapshot still `⟨1, 2, 3⟩` — appending did not reset it to zero. -/
theorem c6_counterexample :
    ((getNextCompletion parseNever ctLen ⟨"m", true⟩
        [c6CallResponse, c6FinalResponse] c6Controller 0).map
      (fun p => (p.2.messages.length, p.2.usage)) = some (1, ⟨1, 2, 3⟩)) ∧
    c6Controller.messages.length = 0 ∧
    (⟨1, 2, 3⟩ : CreateCompletionResponseUsage) ≠ usageZero := by
  refine ⟨rfl, rfl, by decide⟩

end Chatin
